import Mathlib

/-!
Formal model of the orchestration core of the openrouter-mcp server
(src/server.ts): response normalization, retry with exponential backoff,
single-model chat message building, and the multi-model comparison fan-out
with its textual rendering.  Each definition is a shallow embedding of the
corresponding TypeScript function; network effects are abstracted as
explicit attempt-indexed outcome functions, and backoff sleeps are recorded
as a list of computed delays rather than performed.
-/

namespace OpenRouterMCP

/-- One entry of the polymorphic `content` array of an OpenRouter message:
`{ type: string; text?: string }` (src/server.ts line 54). -/
structure ContentPart where
  type : String
  text : Option String
deriving DecidableEq, Repr

/-- The polymorphic `content` field of an `OpenRouterMessage`
(src/server.ts line 54): `string | null | Array of parts`.  The TypeScript
values `null` and `undefined` are both modelled by the `null` constructor,
since `extractMessageContent` treats them identically (line 73). -/
inductive ContentField where
  | null : ContentField
  | str : String → ContentField
  | parts : List ContentPart → ContentField
deriving DecidableEq, Repr

/-- `OpenRouterMessage` (src/server.ts lines 52-57); the `tool_calls` field
is never read by the modelled code and is omitted. -/
structure OpenRouterMessage where
  role : String
  content : ContentField
  reasoning_content : Option String
deriving DecidableEq, Repr

/-- The `{content, reasoning}` pair returned by `extractMessageContent`
(src/server.ts lines 60-63). -/
structure NormalizedReply where
  content : Option String
  reasoning : Option String
deriving DecidableEq, Repr

/-- JavaScript `array.join("")` on a list of strings: concatenation in
order with no separator. -/
def joinStrings : List String → String
  | [] => ""
  | s :: rest => s ++ joinStrings rest

/-- `extractMessageContent` (src/server.ts lines 60-87).
The reasoning branch models `if (message.reasoning_content && typeof
message.reasoning_content === "string")`: a present but empty string is
falsy in JavaScript, so it yields no reasoning.  The parts branch models
the filter on `part.type === "text" && typeof part.text === "string"`,
the map to `part.text`, `join("")`, and the final `textParts || null`
(an empty concatenation is falsy, producing `null`). -/
def extractMessageContent (message : OpenRouterMessage) : NormalizedReply :=
  let reasoning : Option String :=
    match message.reasoning_content with
    | some r => if r = "" then none else some r
    | none => none
  let content : Option String :=
    match message.content with
    | ContentField.null => none
    | ContentField.str s => some s
    | ContentField.parts ps =>
      let textParts :=
        joinStrings ((ps.filter fun p => p.type == "text" && p.text.isSome).map
          fun p => p.text.getD "")
      if textParts = "" then none else some textParts
  ⟨content, reasoning⟩

/-- An error thrown by a wrapped operation, as inspected by
`retryWithBackoff` (src/server.ts line 100): an optional HTTP status
(`error.response?.status`) and a message (`error.message`). -/
structure RetryError where
  status : Option Nat
  message : String
deriving DecidableEq, Repr

/-- The transient-failure classification of src/server.ts line 100:
`error.response?.status === 429 || error.response?.status === 402`. -/
def isRetryableError (e : RetryError) : Bool :=
  e.status == some 429 || e.status == some 402

/-- The `throw new Error("Max retries exceeded")` after the loop
(src/server.ts line 113); unreachable when the loop is entered with its
full attempt budget. -/
def maxRetriesExceededError : RetryError :=
  ⟨none, "Max retries exceeded"⟩

/-- Observable trace of one `retryWithBackoff` run: its outcome, the number
of attempts of the wrapped operation that were performed, and the list of
backoff delays (in milliseconds) that were slept between attempts. -/
structure RetryTrace (α : Type) where
  result : Except RetryError α
  attempts : Nat
  delays : List Nat
deriving Repr

/-- The retry loop body of `retryWithBackoff` (src/server.ts lines
95-112), unrolled as recursion on the remaining loop iterations (`fuel`).
The wrapped operation is modelled as an attempt-indexed outcome function
`op`; the `Math.random() * 1000` jitter is modelled as an arbitrary
attempt-indexed function `jitter`.  A delay of
`baseDelay * 2 ^ attempt + jitter attempt` is recorded (line 103) before a
retry; fuel 0 is the loop exit of line 113. -/
def retryLoop {α : Type} (op : Nat → Except RetryError α)
    (maxRetries baseDelay : Nat) (jitter : Nat → Nat) :
    Nat → Nat → RetryTrace α
  | _, 0 => ⟨Except.error maxRetriesExceededError, 0, []⟩
  | attempt, fuel + 1 =>
    match op attempt with
    | Except.ok v => ⟨Except.ok v, 1, []⟩
    | Except.error e =>
      if isRetryableError e = true ∧ attempt < maxRetries then
        let rest := retryLoop op maxRetries baseDelay jitter (attempt + 1) fuel
        ⟨rest.result, rest.attempts + 1,
          (baseDelay * 2 ^ attempt + jitter attempt) :: rest.delays⟩
      else
        ⟨Except.error e, 1, []⟩

/-- `retryWithBackoff` (src/server.ts lines 90-114): run the loop from
attempt 0 with `maxRetries + 1` iterations available.  The source defaults
are `maxRetries = 3`, `baseDelay = 1000`. -/
def retryWithBackoff {α : Type} (op : Nat → Except RetryError α)
    (maxRetries baseDelay : Nat) (jitter : Nat → Nat) : RetryTrace α :=
  retryLoop op maxRetries baseDelay jitter 0 (maxRetries + 1)

/-- One element of the `messages` array sent to the provider:
`{role: string; content: string}` (src/server.ts line 398). -/
structure ChatMessage where
  role : String
  content : String
deriving DecidableEq, Repr

/-- The conversation built by `chatWithModel` (src/server.ts lines
398-402): `if (system_prompt)` pushes a system turn — JavaScript
truthiness, so an absent or empty `system_prompt` adds nothing — then the
user turn is always pushed. -/
def buildChatMessages (system_prompt : Option String) (message : String) :
    List ChatMessage :=
  let systemTurns : List ChatMessage :=
    match system_prompt with
    | some s => if s = "" then [] else [⟨"system", s⟩]
    | none => []
  systemTurns ++ [⟨"user", message⟩]

/-- The provider `usage` object passed through by both orchestrators. -/
structure Usage where
  prompt_tokens : Nat
  completion_tokens : Nat
  total_tokens : Nat
deriving DecidableEq, Repr

/-- One element of `response.data.choices`: carries the assistant
message read at src/server.ts lines 417 and 458. -/
structure Choice where
  message : OpenRouterMessage
deriving DecidableEq, Repr

/-- The body of a successful `POST /chat/completions` response, as read by
the orchestrators: `choices` and `usage`. -/
structure ChatResponse where
  choices : List Choice
  usage : Usage
deriving DecidableEq, Repr

/-- The request body `compareModels` posts for one model (src/server.ts
lines 449-453): model id, messages, max_tokens. -/
structure ChatRequestBody where
  model : String
  messages : List ChatMessage
  max_tokens : Int
deriving DecidableEq, Repr

/-- One per-model entry of the comparison result set (src/server.ts lines
460-472): either `{model, response, reasoning, usage, success: true}` or
`{model, error, success: false}`. -/
inductive ComparisonResult where
  | success : String → Option String → Option String → Usage → ComparisonResult
  | failure : String → String → ComparisonResult
deriving DecidableEq, Repr

/-- The TypeError message produced when `response.data.choices[0]` is
`undefined` and `.message` is read (src/server.ts line 458); the runtime
wording is abbreviated since no claim depends on it. -/
def choicesIndexErrorMessage : String :=
  "Cannot read properties of undefined"

/-- The fan-out of `compareModels` (src/server.ts lines 442-476).  The
remote call is abstracted as `post`, mapping a request body and an attempt
index to an outcome; each model's call goes through `retryWithBackoff`
with the source defaults `maxRetries = 3`, `baseDelay = 1000`.  The
`try/catch` around each model becomes the match on the retry result, and
`Promise.all` over `models.map` becomes `List.map`, which preserves the
requested order by construction. -/
def compareModels (post : ChatRequestBody → Nat → Except RetryError ChatResponse)
    (jitter : String → Nat → Nat) (models : List String) (message : String)
    (max_tokens : Int) : List ComparisonResult :=
  models.map fun model =>
    match (retryWithBackoff (post ⟨model, [⟨"user", message⟩], max_tokens⟩)
        3 1000 (jitter model)).result with
    | Except.error e => ComparisonResult.failure model e.message
    | Except.ok resp =>
      match resp.choices.head? with
      | none => ComparisonResult.failure model choicesIndexErrorMessage
      | some choice =>
        ComparisonResult.success model
          (extractMessageContent choice.message).content
          (extractMessageContent choice.message).reasoning
          resp.usage

/-- JavaScript `string.slice(0, n)`: the first `n` characters. -/
def sliceTo (s : String) (n : Nat) : String :=
  String.mk (s.data.take n)

/-- The per-result formatter of `compareModels` (src/server.ts lines
479-490).  `if (result.reasoning)` is JavaScript truthiness: a null or
empty reasoning emits no reasoning line; a longer-than-200 reasoning is
sliced to 200 characters and suffixed with `"..."`.  `result.response ??
"(no content)"` is the nullish fallback. -/
def formatResult : ComparisonResult → String
  | ComparisonResult.success model response reasoning usage =>
    let reasoningBlock : String :=
      match reasoning with
      | some r =>
        if r = "" then ""
        else "*Reasoning:* " ++ sliceTo r 200 ++
          (if 200 < r.length then "..." else "") ++ "\n\n"
      | none => ""
    "**" ++ model ++ ":**\n" ++ reasoningBlock ++
      (response.getD "(no content)") ++ "\n*Tokens: " ++
      toString usage.total_tokens ++ "*"
  | ComparisonResult.failure model error =>
    "**" ++ model ++ ":** ❌ Error - " ++ error

/-- The final report of `compareModels` (src/server.ts lines 478-497):
per-model blocks joined with the visible separator, prefixed by the count
of models compared. -/
def renderComparison (models : List String) (results : List ComparisonResult) :
    String :=
  "Comparison of " ++ toString models.length ++ " models:\n\n" ++
    String.intercalate "\n\n---\n\n" (results.map formatResult)

/-- A JSON value, for modelling zod schema validation of tool arguments. -/
inductive Json where
  | null : Json
  | str : String → Json
  | num : Int → Json
  | bool : Bool → Json
  | arr : List Json → Json
  | obj : List (String × Json) → Json

/-- Lookup of an object field by key (first occurrence). -/
def getField : List (String × Json) → String → Option Json
  | [], _ => none
  | (k, v) :: rest, key => if k = key then some v else getField rest key

/-- zod `z.string()`: accept exactly a JSON string. -/
def asString : Json → Option String
  | Json.str s => some s
  | _ => none

/-- zod `z.array(z.string())`: accept an array whose elements are all
strings.  No minimum length is imposed, matching the source schema. -/
def asStringArray : Json → Option (List String)
  | Json.arr xs => xs.mapM asString
  | _ => none

/-- The parsed arguments of the `compare_models` tool. -/
structure CompareParams where
  models : List String
  message : String
  max_tokens : Int
deriving DecidableEq, Repr

/-- `CompareModelsSchema.parse` (src/server.ts lines 27-31): `models` is a
required array of strings (any length), `message` a required string,
`max_tokens` an optional number defaulting to 500. -/
def parseCompareModels : Json → Option CompareParams
  | Json.obj fields =>
    match (getField fields "models").bind asStringArray with
    | none => none
    | some models =>
      match (getField fields "message").bind asString with
      | none => none
      | some message =>
        match getField fields "max_tokens" with
        | none => some ⟨models, message, 500⟩
        | some (Json.num n) => some ⟨models, message, n⟩
        | some _ => none
  | _ => none

/-- The whole `compare_models` tool on parsed arguments: fan out, then
render (src/server.ts lines 439-500). -/
def compareModelsText (post : ChatRequestBody → Nat → Except RetryError ChatResponse)
    (jitter : String → Nat → Nat) (params : CompareParams) : String :=
  renderComparison params.models
    (compareModels post jitter params.models params.message params.max_tokens)

/-- Specification-side restatement of normalizer rule 4, written directly
from the spec's words: keep only parts tagged text-kind that carry a text
payload, and concatenate the payloads in order with no separator.  Used to
compare the code's filter/map/join pipeline against the spec. -/
def textPartsConcat : List ContentPart → String
  | [] => ""
  | p :: rest =>
    match p.text with
    | some t => (if p.type = "text" then t else "") ++ textPartsConcat rest
    | none => textPartsConcat rest

/-- The code's filter/map/join pipeline over content parts computes the
spec's in-order concatenation of text-kind payloads. -/
theorem joinStrings_pipeline (ps : List ContentPart) :
    joinStrings ((ps.filter fun p => p.type == "text" && p.text.isSome).map
      fun p => p.text.getD "") = textPartsConcat ps := by
  induction ps with
  | nil => rfl
  | cons p rest ih =>
    cases hp : p.text with
    | none =>
      simp [List.filter_cons, hp, textPartsConcat, ih]
    | some t =>
      by_cases ht : p.type = "text"
      · simp [List.filter_cons, hp, ht, textPartsConcat, joinStrings, ih]
      · simp [List.filter_cons, hp, ht, textPartsConcat, joinStrings, ih]

/-- C4: for a parts-shaped `content`, the normalizer keeps only text-kind
parts with a text payload and concatenates their payloads in order with no
separator; an empty concatenation (in particular when no part is
text-kind) yields absent content, never the empty string.  The parts
`[(text,"A"), (other), (text,"B")]` yield `"AB"`. -/
theorem claim_C4_parts_concatenation :
    (∀ role rc ps,
      (extractMessageContent ⟨role, ContentField.parts ps, rc⟩).content =
        if textPartsConcat ps = "" then none else some (textPartsConcat ps)) ∧
    (∀ role rc,
      (extractMessageContent ⟨role, ContentField.parts
        [⟨"text", some "A"⟩, ⟨"other", some "x"⟩, ⟨"text", some "B"⟩],
        rc⟩).content = some "AB") ∧
    (∀ role rc,
      (extractMessageContent ⟨role, ContentField.parts
        [⟨"other", some "x"⟩, ⟨"image", none⟩], rc⟩).content = none) := by
  refine ⟨?_, ?_, ?_⟩
  · intro role rc ps
    simp only [extractMessageContent, joinStrings_pipeline]
  · intro role rc
    rfl
  · intro role rc
    rfl

/-- C8: an absent/null `content` normalizes to absent content, and a
plain-text `content` normalizes to exactly that text. -/
theorem claim_C8_null_and_plain_text :
    (∀ role rc,
      (extractMessageContent ⟨role, ContentField.null, rc⟩).content = none) ∧
    (∀ role rc s,
      (extractMessageContent ⟨role, ContentField.str s, rc⟩).content = some s) :=
  ⟨fun _ _ => rfl, fun _ _ _ => rfl⟩

/-- C9: an empty-string `system_prompt` is falsy in JavaScript, so the
built conversation is the same as with no system prompt at all: the single
user turn. -/
theorem claim_C9_empty_system_prompt (message : String) :
    buildChatMessages (some "") message = buildChatMessages none message ∧
    buildChatMessages (some "") message = [⟨"user", message⟩] :=
  ⟨rfl, rfl⟩

/-- C6 as stated is false: a supplied but empty `system_prompt` is falsy,
so the conversation has one turn, not two. -/
theorem claim_C6_counterexample :
    (buildChatMessages (some "") "hi").length ≠ 2 := by
  decide

/-- C6 (amended): with no `system_prompt` the conversation is exactly the
user turn; with a non-empty `system_prompt` supplied it is exactly two
turns in order system-then-user. -/
theorem claim_C6_conversation_turns :
    (∀ message, buildChatMessages none message = [⟨"user", message⟩]) ∧
    (∀ system_prompt message, system_prompt ≠ "" →
      buildChatMessages (some system_prompt) message =
        [⟨"system", system_prompt⟩, ⟨"user", message⟩]) := by
  refine ⟨fun message => rfl, fun system_prompt message h => ?_⟩
  simp [buildChatMessages, h]

/-- Witness for C6 (amended) at a concrete non-empty system prompt. -/
theorem claim_C6_witness :
    buildChatMessages (some "Be brief.") "hi" =
      [⟨"system", "Be brief."⟩, ⟨"user", "hi"⟩] :=
  claim_C6_conversation_turns.2 "Be brief." "hi" (by decide)

/-- C5: in the comparison rendering, a successful result whose reasoning
is longer than 200 characters is rendered with the first 200 characters of
the reasoning followed by the ellipsis marker; a non-empty reasoning of at
most 200 characters is rendered unmodified. -/
theorem claim_C5_reasoning_truncation (model : String) (response : Option String)
    (usage : Usage) (r : String) :
    (200 < r.length →
      formatResult (ComparisonResult.success model response (some r) usage) =
        "**" ++ model ++ ":**\n" ++
          ("*Reasoning:* " ++ sliceTo r 200 ++ "..." ++ "\n\n") ++
          response.getD "(no content)" ++ "\n*Tokens: " ++
          toString usage.total_tokens ++ "*") ∧
    (r ≠ "" → r.length ≤ 200 →
      formatResult (ComparisonResult.success model response (some r) usage) =
        "**" ++ model ++ ":**\n" ++
          ("*Reasoning:* " ++ r ++ "\n\n") ++
          response.getD "(no content)" ++ "\n*Tokens: " ++
          toString usage.total_tokens ++ "*") := by
  constructor
  · intro h
    have hne : r ≠ "" := by
      intro he
      rw [he] at h
      simp [String.length] at h
    simp [formatResult, hne, h]
  · intro hne hle
    have htake : sliceTo r 200 = r := by
      show String.mk (r.data.take 200) = r
      rw [List.take_of_length_le hle]
    simp [formatResult, hne, Nat.not_lt.2 hle, htake]

/-- A 201-character reasoning text, for the C5 witness. -/
def longReasoning : String := String.mk (List.replicate 201 'a')

set_option maxRecDepth 8000 in
/-- Witness for C5 at a concrete 201-character reasoning text. -/
theorem claim_C5_witness :
    formatResult (ComparisonResult.success "m" (some "ok") (some longReasoning)
        ⟨1, 1, 2⟩) =
      "**" ++ "m" ++ ":**\n" ++
        ("*Reasoning:* " ++ sliceTo longReasoning 200 ++ "..." ++ "\n\n") ++
        (some "ok").getD "(no content)" ++ "\n*Tokens: " ++
        toString (Usage.mk 1 1 2).total_tokens ++ "*" :=
  (claim_C5_reasoning_truncation "m" (some "ok") ⟨1, 1, 2⟩ longReasoning).1
    (by decide)

/-- C10: the `compare_models` schema accepts an empty models list (no
minimum length), and the tool then produces — for every possible remote
behaviour, hence without depending on any remote call — the report
"Comparison of 0 models:" with no per-model blocks after the header. -/
theorem claim_C10_empty_models :
    parseCompareModels
        (Json.obj [("models", Json.arr []), ("message", Json.str "hi")]) =
      some ⟨[], "hi", 500⟩ ∧
    ∀ post jitter, compareModelsText post jitter ⟨[], "hi", 500⟩ =
      "Comparison of 0 models:\n\n" := by
  exact ⟨rfl, fun post jitter => rfl⟩

/-- C2: the transient classification is exactly status 429 or 402, and a
first-attempt failure that is not transient propagates at once: one
attempt, no retry, no delay. -/
theorem claim_C2_fatal_propagates {α : Type} (op : Nat → Except RetryError α)
    (maxRetries baseDelay : Nat) (jitter : Nat → Nat) (e : RetryError)
    (h0 : op 0 = Except.error e) (hf : isRetryableError e = false) :
    (retryWithBackoff op maxRetries baseDelay jitter).result = Except.error e ∧
    (retryWithBackoff op maxRetries baseDelay jitter).attempts = 1 ∧
    (retryWithBackoff op maxRetries baseDelay jitter).delays = [] ∧
    (∀ e2, isRetryableError e2 = true ↔
      (e2.status = some 429 ∨ e2.status = some 402)) := by
  refine ⟨?_, ?_, ?_, ?_⟩
  · simp [retryWithBackoff, retryLoop, h0, hf]
  · simp [retryWithBackoff, retryLoop, h0, hf]
  · simp [retryWithBackoff, retryLoop, h0, hf]
  · intro e2
    simp [isRetryableError]

/-- Witness for C2 at a concrete always-500 operation. -/
theorem claim_C2_witness :
    (retryWithBackoff
        (fun _ => (Except.error ⟨some 500, "ISE"⟩ : Except RetryError Nat))
        3 1000 (fun _ => 0)).result = Except.error ⟨some 500, "ISE"⟩ ∧
    (retryWithBackoff
        (fun _ => (Except.error ⟨some 500, "ISE"⟩ : Except RetryError Nat))
        3 1000 (fun _ => 0)).attempts = 1 ∧
    (retryWithBackoff
        (fun _ => (Except.error ⟨some 500, "ISE"⟩ : Except RetryError Nat))
        3 1000 (fun _ => 0)).delays = [] :=
  let h := claim_C2_fatal_propagates
    (fun _ => (Except.error ⟨some 500, "ISE"⟩ : Except RetryError Nat))
    3 1000 (fun _ => 0) ⟨some 500, "ISE"⟩ rfl (by decide)
  ⟨h.1, h.2.1, h.2.2.1⟩

/-- One step of the retry loop when the current attempt fails transiently
and attempts remain: record the delay and recurse on the next attempt. -/
theorem retryLoop_step_retry {α : Type} (op : Nat → Except RetryError α)
    (maxRetries baseDelay : Nat) (jitter : Nat → Nat) (attempt fuel : Nat)
    (e : RetryError) (hop : op attempt = Except.error e)
    (hr : isRetryableError e = true) (hlt : attempt < maxRetries) :
    retryLoop op maxRetries baseDelay jitter attempt (fuel + 1) =
      ⟨(retryLoop op maxRetries baseDelay jitter (attempt + 1) fuel).result,
       (retryLoop op maxRetries baseDelay jitter (attempt + 1) fuel).attempts + 1,
       (baseDelay * 2 ^ attempt + jitter attempt) ::
         (retryLoop op maxRetries baseDelay jitter (attempt + 1) fuel).delays⟩ := by
  simp only [retryLoop, hop]
  rw [if_pos (And.intro hr hlt)]

/-- One step of the retry loop when the current attempt fails and no retry
is taken (non-transient error, or no attempts remaining): propagate. -/
theorem retryLoop_step_stop {α : Type} (op : Nat → Except RetryError α)
    (maxRetries baseDelay : Nat) (jitter : Nat → Nat) (attempt fuel : Nat)
    (e : RetryError) (hop : op attempt = Except.error e)
    (hcond : ¬(isRetryableError e = true ∧ attempt < maxRetries)) :
    retryLoop op maxRetries baseDelay jitter attempt (fuel + 1) =
      ⟨Except.error e, 1, []⟩ := by
  simp only [retryLoop, hop]
  rw [if_neg hcond]

/-- When every attempt fails transiently, the loop runs through its whole
fuel: the result is the error of the last attempt (attempt `maxRetries`)
and the number of attempts equals the fuel. -/
theorem retryLoop_all_transient {α : Type} (op : Nat → Except RetryError α)
    (errs : Nat → RetryError) (maxRetries baseDelay : Nat) (jitter : Nat → Nat)
    (hop : ∀ i, op i = Except.error (errs i))
    (hr : ∀ i, isRetryableError (errs i) = true) :
    ∀ fuel attempt, attempt + fuel = maxRetries →
      (retryLoop op maxRetries baseDelay jitter attempt (fuel + 1)).result =
        Except.error (errs maxRetries) ∧
      (retryLoop op maxRetries baseDelay jitter attempt (fuel + 1)).attempts =
        fuel + 1 := by
  intro fuel
  induction fuel with
  | zero =>
    intro attempt h
    have ha : attempt = maxRetries := by omega
    rw [retryLoop_step_stop op maxRetries baseDelay jitter attempt 0
      (errs attempt) (hop attempt) (by simp [ha])]
    rw [ha]
    exact ⟨rfl, rfl⟩
  | succ f ih =>
    intro attempt h
    have hlt : attempt < maxRetries := by omega
    have ih2 := ih (attempt + 1) (by omega)
    rw [retryLoop_step_retry op maxRetries baseDelay jitter attempt (f + 1)
      (errs attempt) (hop attempt) (hr attempt) hlt]
    exact ⟨ih2.1, by rw [ih2.2]⟩

/-- C3: if every attempt fails with status 429, the invoker performs
exactly `maxRetries + 1` attempts and propagates the last error. -/
theorem claim_C3_retry_exhaustion {α : Type} (op : Nat → Except RetryError α)
    (errs : Nat → RetryError) (maxRetries baseDelay : Nat) (jitter : Nat → Nat)
    (hop : ∀ i, op i = Except.error (errs i))
    (hs : ∀ i, (errs i).status = some 429) :
    (retryWithBackoff op maxRetries baseDelay jitter).result =
      Except.error (errs maxRetries) ∧
    (retryWithBackoff op maxRetries baseDelay jitter).attempts =
      maxRetries + 1 := by
  have hr : ∀ i, isRetryableError (errs i) = true := by
    intro i
    simp [isRetryableError, hs i]
  exact retryLoop_all_transient op errs maxRetries baseDelay jitter hop hr
    maxRetries 0 (by omega)

/-- Witness for C3 at a concrete always-429 operation with maxRetries 2. -/
theorem claim_C3_witness :
    (retryWithBackoff
        (fun _ => (Except.error ⟨some 429, "rate"⟩ : Except RetryError Nat))
        2 1000 (fun _ => 0)).result = Except.error ⟨some 429, "rate"⟩ ∧
    (retryWithBackoff
        (fun _ => (Except.error ⟨some 429, "rate"⟩ : Except RetryError Nat))
        2 1000 (fun _ => 0)).attempts = 3 :=
  claim_C3_retry_exhaustion
    (fun _ => (Except.error ⟨some 429, "rate"⟩ : Except RetryError Nat))
    (fun _ => ⟨some 429, "rate"⟩) 2 1000 (fun _ => 0)
    (fun _ => rfl) (fun _ => rfl)

/-- C7: an operation that fails with 429 on attempts 0 and 1 and succeeds
on attempt 2, run with maxRetries 3, returns the success result after
exactly 3 attempts. -/
theorem claim_C7_success_after_transient {α : Type}
    (op : Nat → Except RetryError α) (e0 e1 : RetryError) (v : α)
    (baseDelay : Nat) (jitter : Nat → Nat)
    (h0 : op 0 = Except.error e0) (hs0 : e0.status = some 429)
    (h1 : op 1 = Except.error e1) (hs1 : e1.status = some 429)
    (h2 : op 2 = Except.ok v) :
    (retryWithBackoff op 3 baseDelay jitter).result = Except.ok v ∧
    (retryWithBackoff op 3 baseDelay jitter).attempts = 3 := by
  simp [retryWithBackoff, retryLoop, h0, h1, h2, isRetryableError, hs0, hs1]

/-- Witness for C7 at a concrete twice-429-then-success operation. -/
theorem claim_C7_witness :
    (retryWithBackoff
        (fun i => if i < 2
          then (Except.error ⟨some 429, "rate"⟩ : Except RetryError Nat)
          else Except.ok 42)
        3 1000 (fun _ => 0)).result = Except.ok 42 ∧
    (retryWithBackoff
        (fun i => if i < 2
          then (Except.error ⟨some 429, "rate"⟩ : Except RetryError Nat)
          else Except.ok 42)
        3 1000 (fun _ => 0)).attempts = 3 :=
  claim_C7_success_after_transient
    (fun i => if i < 2
      then (Except.error ⟨some 429, "rate"⟩ : Except RetryError Nat)
      else Except.ok 42)
    ⟨some 429, "rate"⟩ ⟨some 429, "rate"⟩ 42 1000 (fun _ => 0)
    rfl rfl rfl rfl rfl

/-- C1: for requested models [A, B, C] where B's retried call fails and
A's and C's succeed, the result set has exactly one entry per requested
model in the requested order; B's entry is marked failed and carries its
error text, while A's and C's entries are marked succeeded with their
normalized replies. -/
theorem claim_C1_comparison_isolation
    (post : ChatRequestBody → Nat → Except RetryError ChatResponse)
    (jitter : String → Nat → Nat) (mA mB mC : String) (message : String)
    (max_tokens : Int) (respA respC : ChatResponse) (chA chC : Choice)
    (eB : RetryError)
    (hA : (retryWithBackoff (post ⟨mA, [⟨"user", message⟩], max_tokens⟩)
        3 1000 (jitter mA)).result = Except.ok respA)
    (hAc : respA.choices.head? = some chA)
    (hB : (retryWithBackoff (post ⟨mB, [⟨"user", message⟩], max_tokens⟩)
        3 1000 (jitter mB)).result = Except.error eB)
    (hC : (retryWithBackoff (post ⟨mC, [⟨"user", message⟩], max_tokens⟩)
        3 1000 (jitter mC)).result = Except.ok respC)
    (hCc : respC.choices.head? = some chC) :
    compareModels post jitter [mA, mB, mC] message max_tokens =
      [ComparisonResult.success mA (extractMessageContent chA.message).content
          (extractMessageContent chA.message).reasoning respA.usage,
       ComparisonResult.failure mB eB.message,
       ComparisonResult.success mC (extractMessageContent chC.message).content
          (extractMessageContent chC.message).reasoning respC.usage] := by
  simp [compareModels, hA, hAc, hB, hC, hCc]

/-- A stub assistant message, response, and remote behaviour for the C1
witness: the middle model fails fatally, the others succeed. -/
def demoMessage : OpenRouterMessage := ⟨"assistant", ContentField.str "hello", none⟩

/-- Stub successful chat response used by the C1 witness. -/
def demoResponse : ChatResponse := ⟨[⟨demoMessage⟩], ⟨1, 1, 2⟩⟩

/-- Stub remote behaviour for the C1 witness. -/
def demoPost : ChatRequestBody → Nat → Except RetryError ChatResponse :=
  fun body _ =>
    if body.model = "beta/b" then Except.error ⟨some 500, "boom"⟩
    else Except.ok demoResponse

/-- Witness for C1 at a concrete three-model comparison whose middle model
fails with a fatal 500. -/
theorem claim_C1_witness :
    compareModels demoPost (fun _ _ => 0) ["alpha/a", "beta/b", "gamma/c"]
        "hi" 500 =
      [ComparisonResult.success "alpha/a" (some "hello") none ⟨1, 1, 2⟩,
       ComparisonResult.failure "beta/b" "boom",
       ComparisonResult.success "gamma/c" (some "hello") none ⟨1, 1, 2⟩] :=
  claim_C1_comparison_isolation demoPost (fun _ _ => 0)
    "alpha/a" "beta/b" "gamma/c" "hi" 500
    demoResponse demoResponse ⟨demoMessage⟩ ⟨demoMessage⟩ ⟨some 500, "boom"⟩
    rfl rfl rfl rfl rfl

end OpenRouterMCP
